import Mathlib

/-!
Shallow embedding of the topic collection / deduplication / scoring core of
the crypto-article-system repository (files `src/topic_collector.py` and
`src/content_scorer.py`), together with theorems settling the frozen claims
about it.

Modelling conventions:
* Python floats are modelled as exact rationals (`ℚ`); the arithmetic the
  claims are about (sums, products, `min`/`max` clamps, comparisons) is exact.
* Timestamps are rationals counting seconds, so `now - collected_at` is the
  age in seconds, matching `(datetime.now() - collected_at).total_seconds()`.
* Python's `round(x, 1)` is modelled as exact round-half-to-even on ℚ.
* Python `set` objects are modelled as lists kept duplicate-free by the
  insertion operation; membership agrees with the set semantics.
* Python substring test `kw in text` is modelled by an explicit character
  list search, and `str.split()` by splitting on whitespace and dropping
  empty fragments.
-/

/-- `TopicSource` enum from `topic_collector.py`. -/
inductive TopicSource where
  | rss_feed
  | price_api
  | social_media
  | news_api
  | onchain_data
deriving DecidableEq, Repr

/-- `TopicPriority` enum from `topic_collector.py`. -/
inductive TopicPriority where
  | urgent
  | high
  | medium
  | low
  | scheduled
deriving DecidableEq, Repr

/-- The `CollectedTopic` dataclass. `collected_at` is a timestamp in seconds;
`data` is the opaque extra-data dict, modelled as a string association list. -/
structure CollectedTopic where
  title : String
  source : TopicSource
  source_url : Option String
  priority : TopicPriority
  coins : List String
  keywords : List String
  summary : Option String
  collected_at : ℚ
  data : List (String × String) := []
  score : ℚ := 0
deriving DecidableEq, Repr

/-- Does the pattern `p` start the char list `s`? (helper for substring search). -/
def startsList : List Char → List Char → Bool
  | [], _ => true
  | _ :: _, [] => false
  | a :: p, b :: s => a == b && startsList p s

/-- Does the pattern `p` occur somewhere inside `s`? -/
def containsList (p : List Char) : List Char → Bool
  | [] => startsList p []
  | s@(_ :: rest) => startsList p s || containsList p rest

/-- Python's substring test `needle in hay`. -/
def containsStr (needle hay : String) : Bool :=
  containsList needle.data hay.data

/-- Python's `str.lower()` (character-wise case folding, as in `Char.toLower`). -/
def pyLower (s : String) : String :=
  String.mk (s.data.map Char.toLower)

/-- Worker for `pySplit`: emit maximal runs of non-whitespace characters
(`acc` is the current run, reversed). -/
def pyWords : List Char → List Char → List String
  | [], acc => if acc = [] then [] else [String.mk acc.reverse]
  | c :: cs, acc =>
    if c.isWhitespace then
      (if acc = [] then pyWords cs [] else String.mk acc.reverse :: pyWords cs [])
    else pyWords cs (c :: acc)

/-- Python's `str.split()`: split on whitespace runs, discarding empty fragments. -/
def pySplit (s : String) : List String :=
  pyWords s.data []

/-- Round-half-to-even to an integer (the behaviour of Python's `round`). -/
def roundHalfEven (q : ℚ) : ℤ :=
  let f := ⌊q⌋
  let r := q - f
  if r < 1 / 2 then f
  else if 1 / 2 < r then f + 1
  else if f % 2 = 0 then f else f + 1

/-- Python's `round(x, 1)`, modelled exactly on rationals. -/
def pyRound1 (q : ℚ) : ℚ :=
  (roundHalfEven (q * 10) : ℚ) / 10

namespace ContentScorer

/-- One entry of the `scoring_rules` dict of `ContentScorer.__init__`. -/
structure ScoringRule where
  category : String
  keywords : List String
  weight : ℚ
  base_score : ℚ

/-- `scoring_rules["urgent"]`. -/
def urgent_rule : ScoringRule :=
  { category := "urgent"
    keywords :=
      ["hack", "hacked", "exploit", "breach", "stolen", "theft",
       "crash", "collapse", "scam", "fraud", "rug pull",
       "sec investigation", "lawsuit", "ban", "banned", "emergency",
       "critical bug", "vulnerability", "attack", "ransomware"]
    weight := 25
    base_score := 90 }

/-- `scoring_rules["high"]`. -/
def high_rule : ScoringRule :=
  { category := "high"
    keywords :=
      ["breaking", "announced", "launch", "launches", "released",
       "partnership", "merger", "acquisition", "investment",
       "etf approved", "etf approval", "regulation", "regulatory",
       "all-time high", "ath", "new high", "record high",
       "institutional", "whale", "major update", "upgrade",
       "mainnet", "testnet", "halving", "hard fork"]
    weight := 15
    base_score := 70 }

/-- `scoring_rules["medium"]`. -/
def medium_rule : ScoringRule :=
  { category := "medium"
    keywords :=
      ["surge", "rally", "gains", "rises", "increases",
       "drops", "falls", "declines", "analysis", "prediction",
       "forecast", "trend", "technical analysis", "resistance",
       "support", "bullish", "bearish", "adoption", "integration",
       "development", "roadmap", "tokenomics", "airdrop"]
    weight := 10
    base_score := 50 }

/-- `scoring_rules["low"]`. -/
def low_rule : ScoringRule :=
  { category := "low"
    keywords :=
      ["opinion", "thoughts", "believes", "expects", "might",
       "could", "possibly", "perhaps", "interview", "podcast",
       "conference", "event", "meetup", "community", "social",
       "tweet", "twitter", "reddit", "discussion"]
    weight := 5
    base_score := 20 }

/-- The `scoring_rules` dict, in its Python insertion order. -/
def scoring_rules : List ScoringRule :=
  [urgent_rule, high_rule, medium_rule, low_rule]

/-- The `price_impact_rules` dict (threshold, bonus), in insertion order. -/
def price_impact_rules : List (ℚ × ℚ) :=
  [(15, 20), (8, 15), (5, 10), (2, 5)]

/-- The `coin_importance` dict. -/
def coin_importance : List (String × ℚ) :=
  [("BTC", 3 / 2), ("ETH", 7 / 5), ("BNB", 6 / 5), ("XRP", 6 / 5),
   ("ADA", 11 / 10), ("SOL", 11 / 10), ("DOGE", 1)]

/-- `ContentScorer._analyze_content`: for every category, start from its base
score, add the weight once for each of the category's keywords that occurs in
the lowercased `title + " " + summary`, keep the running maximum (started at
0, updated on strict improvement), and finally cap at 100. -/
def analyze_content (title summary : String) : ℚ :=
  let text := pyLower (title ++ " " ++ summary)
  let max_score := scoring_rules.foldl
    (fun max_score r =>
      let category_score := r.keywords.foldl
        (fun s k => if containsStr k text then s + r.weight else s) r.base_score
      if max_score < category_score then category_score else max_score)
    0
  min 100 max_score

/-- `ContentScorer._calculate_price_bonus`: first matching tier wins; changes
of at least 20% multiply the tier bonus by 1.5. `none` models Python `None`. -/
def calculate_price_bonus : Option ℚ → ℚ
  | none => 0
  | some price_change =>
    let abs_change := |price_change|
    match price_impact_rules.find? (fun r => decide (r.1 ≤ abs_change)) with
    | some r => if 20 ≤ abs_change then r.2 * (3 / 2) else r.2
    | none => 0

/-- `ContentScorer._calculate_coin_importance`: maximum of the per-coin
importance factors (default 1.0), or 1.0 for an empty/absent coin list. -/
def calculate_coin_importance (coins : List String) : ℚ :=
  if coins = [] then 1
  else coins.foldl
    (fun max_importance coin =>
      max max_importance
        (((coin_importance.find? (fun p => p.1 == coin)).map Prod.snd).getD 1))
    1

/-- `ContentScorer._calculate_time_decay`, with the published time given as an
age in hours (`none` models a missing/empty published time; the inner
ISO-parsing `try`, which falls back to 1.0, is outside the embedding). -/
def calculate_time_decay : Option ℚ → ℚ
  | none => 1
  | some age_hours =>
    if age_hours ≤ 1 then 1
    else if age_hours ≤ 6 then 9 / 10
    else if age_hours ≤ 24 then 8 / 10
    else if age_hours ≤ 48 then 6 / 10
    else if age_hours ≤ 7 * 24 then 4 / 10
    else 2 / 10

/-- `ContentScorer._determine_priority`. -/
def determine_priority (score : ℚ) : String :=
  if 85 ≤ score then "urgent"
  else if 70 ≤ score then "high"
  else if 50 ≤ score then "medium"
  else "low"

/-- The `breakdown` dict of a successful `score_content` result. -/
structure ScoreBreakdown where
  content_score : ℚ
  price_bonus : ℚ
  coin_multiplier : ℚ
  time_multiplier : ℚ
  raw_score : ℚ
deriving DecidableEq, Repr

/-- The `factors` dict of a successful `score_content` result. -/
structure ScoreFactors where
  urgent_signals : Bool
  price_impact : Bool
  major_coins : Bool
  recent : Bool
deriving DecidableEq, Repr

/-- The dict returned by `ContentScorer.score_content`. -/
structure ScoreResult where
  score : ℚ
  priority : String
  breakdown : Option ScoreBreakdown
  factors : Option ScoreFactors
  error_msg : Option String
deriving DecidableEq, Repr

/-- The `try` block of `ContentScorer.score_content` (lines 115-151). -/
def score_content_body (title summary : String) (coins : List String)
    (price_change : Option ℚ) (published_age : Option ℚ) : ScoreResult :=
  let content_score := analyze_content title summary
  let price_bonus := calculate_price_bonus price_change
  let coin_multiplier := calculate_coin_importance coins
  let time_multiplier := calculate_time_decay published_age
  let raw_score := (content_score + price_bonus) * coin_multiplier * time_multiplier
  let final_score := min 100 (max 0 raw_score)
  { score := pyRound1 final_score
    priority := determine_priority final_score
    breakdown := some
      { content_score := content_score
        price_bonus := price_bonus
        coin_multiplier := coin_multiplier
        time_multiplier := time_multiplier
        raw_score := raw_score }
    factors := some
      { urgent_signals := decide (90 ≤ content_score)
        price_impact :=
          match price_change with
          | some p => decide (5 ≤ |p|)
          | none => false
        major_coins := coins.any (fun c => c == "BTC" || c == "ETH")
        recent := decide (8 / 10 ≤ time_multiplier) }
    error_msg := none }

/-- The `except` handler of `ContentScorer.score_content` (lines 153-161):
an exceptional outcome of the `try` block is replaced by the fallback result
`score=50.0, priority="medium"` with empty breakdown/factors. -/
def score_content_catch : Except String ScoreResult → ScoreResult
  | Except.ok r => r
  | Except.error e =>
    { score := 50
      priority := "medium"
      breakdown := none
      factors := none
      error_msg := some e }

/-- `ContentScorer.score_content`: the `try` body guarded by the handler.
In the embedding the body is total, so the normal path always takes the
`Except.ok` branch; exceptional outcomes enter through `score_content_catch`. -/
def score_content (title summary : String) (coins : List String)
    (price_change : Option ℚ) (published_age : Option ℚ) : ScoreResult :=
  score_content_catch
    (Except.ok (score_content_body title summary coins price_change published_age))

end ContentScorer

namespace TopicManager

/-- `TopicManager._calculate_similarity`: Jaccard similarity of the
whitespace-token sets, 0.0 when either token set is empty. -/
def calculate_similarity (text1 text2 : String) : ℚ :=
  let words1 := (pySplit text1).toFinset
  let words2 := (pySplit text2).toFinset
  if words1 = ∅ ∨ words2 = ∅ then 0
  else ((words1 ∩ words2).card : ℚ) / ((words1 ∪ words2).card : ℚ)

/-- The `TopicManager` state: retained topics, the set of case-folded titles
already processed (Python `set`, modelled as a duplicate-free list), and the
title → collection-time history dict. -/
structure State where
  topics : List CollectedTopic := []
  processed_titles : List String := []
  topic_history : List (String × ℚ) := []
deriving DecidableEq, Repr

/-- `TopicManager._is_duplicate`: exact case-folded title match against the
processed-title set, otherwise any seen title with similarity above 0.8. -/
def is_duplicate (mgr : State) (t : CollectedTopic) : Bool :=
  let title_lower := pyLower t.title
  if mgr.processed_titles.contains title_lower then true
  else mgr.processed_titles.any
    (fun processed_title => decide (8 / 10 < calculate_similarity title_lower processed_title))

/-- `set.add` on the processed-title set (no effect when already present). -/
def set_add (s : List String) (x : String) : List String :=
  if s.contains x then s else s ++ [x]

/-- Dict assignment `d[k] = v` on the history dict. -/
def dict_set (d : List (String × ℚ)) (k : String) (v : ℚ) : List (String × ℚ) :=
  if d.any (fun p => p.1 == k) then d.map (fun p => if p.1 == k then (k, v) else p)
  else d ++ [(k, v)]

/-- `TopicManager._calculate_score` (Strategy A): base score from the priority
tier, multiplied by the linear time decay `max(0, 1 - hours_old/24)`, plus
2 per keyword, 5 per coin, and a tenth of a pre-existing positive score.
`now` is the current timestamp in seconds. -/
def priority_scores : TopicPriority → ℚ
  | TopicPriority.urgent => 100
  | TopicPriority.high => 80
  | TopicPriority.medium => 60
  | TopicPriority.low => 40
  | TopicPriority.scheduled => 20

/-- The body of `TopicManager._calculate_score`, following the source's
statement order (`score += base`, `score *= time_decay`, keyword and coin
bonuses, optional pre-existing score contribution). -/
def calculate_score (now : ℚ) (t : CollectedTopic) : ℚ :=
  let score₀ : ℚ := 0
  let score₁ := score₀ + priority_scores t.priority
  let hours_old := (now - t.collected_at) / 3600
  let time_decay := max 0 (1 - hours_old / 24)
  let score₂ := score₁ * time_decay
  let score₃ := score₂ + (t.keywords.length : ℚ) * 2
  let score₄ := score₃ + (t.coins.length : ℚ) * 5
  if 0 < t.score then score₄ + t.score * (1 / 10) else score₄

/-- `TopicManager.add_topics`: per candidate, skip duplicates, otherwise
store it with its freshly computed Strategy A score and register its
case-folded title. -/
def add_topics (now : ℚ) (mgr : State) (ts : List CollectedTopic) : State :=
  ts.foldl
    (fun m t =>
      if is_duplicate m t then m
      else
        { topics := m.topics ++ [{ t with score := calculate_score now t }]
          processed_titles := set_add m.processed_titles (pyLower t.title)
          topic_history := dict_set m.topic_history (pyLower t.title) t.collected_at })
    mgr

/-- The comparator encoding Python's `sorted(key=lambda x: x.score,
reverse=True)`: a stable sort putting higher scores first. -/
def score_ge (a b : CollectedTopic) : Bool :=
  decide (b.score ≤ a.score)

/-- `TopicManager.get_top_topics`: filter by `score >= min_score`, stable-sort
descending by score, truncate to `count`. -/
def get_top_topics (mgr : State) (count : Nat) (min_score : ℚ) : List CollectedTopic :=
  let sorted_topics :=
    (mgr.topics.filter (fun t => decide (min_score ≤ t.score))).mergeSort score_ge
  sorted_topics.take count

end TopicManager

namespace RSSFeedCollector

/-- The `important_terms` list of `RSSFeedCollector._extract_keywords`. -/
def important_terms : List String :=
  ["価格", "上昇", "下落", "急騰", "急落", "最高値", "最安値",
   "price", "surge", "crash", "pump", "dump", "ATH", "breakout",
   "ハッキング", "hack", "規制", "regulation", "SEC", "ETF",
   "アップデート", "update", "upgrade", "launch", "listing",
   "DeFi", "NFT", "メタバース", "metaverse", "AI",
   "半減期", "halving", "マイニング", "mining",
   "ステーキング", "staking", "イールド", "yield"]

/-- `RSSFeedCollector._extract_keywords`: collect the important terms whose
lowercasing occurs in the lowercased text, keeping at most the first 5.
(`_parse_entry` stores exactly this list in the topic's `keywords` field.) -/
def extract_keywords (text : String) : List String :=
  let text_lower := pyLower text
  (important_terms.filter (fun term => containsStr (pyLower term) text_lower)).take 5

end RSSFeedCollector

namespace PriceDataCollector

/-- One price-mover record as assembled by `_get_price_movers`. -/
structure PriceMover where
  symbol : String
  name : String
  price : ℚ
  change_24h : ℚ
  volume : ℚ
  market_cap : ℚ
deriving DecidableEq, Repr

/-- One trending-coin record as assembled by `_get_trending_coins`. -/
structure TrendingCoin where
  symbol : String
  name : String
  market_cap_rank : ℚ
deriving DecidableEq, Repr

/-- Python's `"{:.1f}"` on a non-negative rational (round half to even to one
decimal, then print); used only to assemble display strings. -/
def py_fmt_1f (q : ℚ) : String :=
  let n := roundHalfEven (q * 10)
  toString (n / 10) ++ "." ++ toString (n.natAbs % 10)

/-- `PriceDataCollector._create_price_topic`, with `now` the collection
timestamp in seconds. The numeric display formatting of the summary string is
abbreviated; no claim inspects it. -/
def create_price_topic (now : ℚ) (mover : PriceMover) : CollectedTopic :=
  let change := mover.change_24h
  let direction := if 0 < change then "急騰" else "急落"
  let title :=
    mover.name ++ "（" ++ mover.symbol ++ "）が24時間で" ++ py_fmt_1f |change| ++ "%" ++ direction
  let priority :=
    if 20 ≤ |change| then TopicPriority.urgent
    else if 15 ≤ |change| then TopicPriority.high
    else TopicPriority.medium
  let keywords :=
    [direction, "価格変動", "market", mover.name] ++
      (if 0 < change then ["bullish", "上昇"] else ["bearish", "下落"])
  { title := title
    source := TopicSource.price_api
    source_url := none
    priority := priority
    coins := [mover.symbol]
    keywords := keywords
    summary := some ("過去24時間で" ++ py_fmt_1f change ++ "%の変動。現在価格: $" ++ py_fmt_1f mover.price)
    collected_at := now
    data := [("price", py_fmt_1f mover.price), ("change_24h", py_fmt_1f change),
             ("volume", py_fmt_1f mover.volume), ("market_cap", py_fmt_1f mover.market_cap)]
    score := |change| }

/-- `PriceDataCollector._create_trending_topic`, with `now` the collection
timestamp in seconds. -/
def create_trending_topic (now : ℚ) (coin : TrendingCoin) : CollectedTopic :=
  { title := coin.name ++ "（" ++ coin.symbol ++ "）が注目を集める - トレンド入り"
    source := TopicSource.social_media
    source_url := none
    priority := TopicPriority.high
    coins := [coin.symbol]
    keywords := ["trending", "注目", "話題", coin.name]
    summary := some ("CoinGeckoのトレンドランキングに登場。時価総額ランク: " ++ py_fmt_1f coin.market_cap_rank)
    collected_at := now
    data := [("market_cap_rank", py_fmt_1f coin.market_cap_rank)]
    score := 50 }

end PriceDataCollector

namespace ContentScorer

/-- The per-category score written as
`baseScore + weight × (number of the category's keywords occurring in text)`,
the closed form of the inner loop of `_analyze_content`. -/
def category_score (r : ScoringRule) (text : String) : ℚ :=
  r.base_score + r.weight * ((r.keywords.filter (fun k => containsStr k text)).length : ℚ)

/-- Modelled from the claim's words: the content score as the bare maximum
over the four categories, with no cap applied. -/
def claimed_content_score (title summary : String) : ℚ :=
  let text := pyLower (title ++ " " ++ summary)
  max (category_score urgent_rule text)
    (max (category_score high_rule text)
      (max (category_score medium_rule text) (category_score low_rule text)))

/-- Modelled from the claim's words: the final Strategy B score as
`clamp((contentScore + priceBonus) × coinMultiplier × timeMultiplier, 0, 100)`
with `contentScore` the uncapped categorical maximum and no other cap. -/
def claimed_final_score (title summary : String) (coins : List String)
    (price_change : Option ℚ) (published_age : Option ℚ) : ℚ :=
  min 100 (max 0 ((claimed_content_score title summary + calculate_price_bonus price_change) *
    calculate_coin_importance coins * calculate_time_decay published_age))

end ContentScorer

namespace TopicManager

/-- Modelled from the claim's words (Strategy A spec): the claimed time-decay
multiplier `max(0.3, 1 − Δt_hours/72)`. -/
def spec_time_decay (hours_old : ℚ) : ℚ :=
  max (3 / 10) (1 - hours_old / 72)

/-- The code's time-decay multiplier, extracted from `_calculate_score`:
`max(0, 1 − Δt_hours/24)`. -/
def code_time_decay (hours_old : ℚ) : ℚ :=
  max 0 (1 - hours_old / 24)

/-- Modelled from the claim's words: the raw Jaccard similarity
`|intersection| / |union|` of the whitespace-token sets (with the `ℚ`
convention `0 / 0 = 0` for the doubly-empty case). -/
def jaccard (a b : String) : ℚ :=
  (((pySplit a).toFinset ∩ (pySplit b).toFinset).card : ℚ) /
    (((pySplit a).toFinset ∪ (pySplit b).toFinset).card : ℚ)

end TopicManager

theorem keyword_foldl_count (text : String) (w : ℚ) (kws : List String) (b : ℚ) :
    kws.foldl (fun s k => if containsStr k text then s + w else s) b
      = b + w * ((kws.filter (fun k => containsStr k text)).length : ℚ) := by
  induction kws generalizing b with
  | nil => simp
  | cons k ks ih =>
    cases h : containsStr k text with
    | true =>
      simp only [List.foldl_cons, List.filter_cons, h, if_true, ih, List.length_cons]
      push_cast
      ring
    | false =>
      simp only [List.foldl_cons, List.filter_cons, h, if_false, ih]
      simp [h]

theorem if_lt_max (a c : ℚ) : (if a < c then c else a) = max a c := by
  rcases lt_or_le a c with h | h
  · rw [if_pos h, max_eq_right h.le]
  · rw [if_neg (not_lt.mpr h), max_eq_left h]

theorem fold_max_four (c1 c2 c3 c4 : ℚ) (h : 0 ≤ c1) :
    max (max (max (max 0 c1) c2) c3) c4 = max c1 (max c2 (max c3 c4)) := by
  rw [max_eq_right h, max_assoc, max_assoc]

theorem category_score_nonneg (r : ContentScorer.ScoringRule) (text : String)
    (hb : 0 ≤ r.base_score) (hw : 0 ≤ r.weight) :
    0 ≤ ContentScorer.category_score r text :=
  add_nonneg hb (mul_nonneg hw (Nat.cast_nonneg _))

theorem analyze_content_closed (title summary : String) :
    ContentScorer.analyze_content title summary
      = min 100 (ContentScorer.claimed_content_score title summary) := by
  unfold ContentScorer.analyze_content ContentScorer.claimed_content_score
  simp only [ContentScorer.scoring_rules, List.foldl_cons, List.foldl_nil,
    keyword_foldl_count, if_lt_max, ContentScorer.category_score]
  congr 1
  exact fold_max_four _ _ _ _
    (category_score_nonneg ContentScorer.urgent_rule _ (by norm_num [ContentScorer.urgent_rule])
      (by norm_num [ContentScorer.urgent_rule]))

theorem calculate_score_closed (now : ℚ) (t : CollectedTopic) :
    TopicManager.calculate_score now t
      = TopicManager.priority_scores t.priority
          * TopicManager.code_time_decay ((now - t.collected_at) / 3600)
        + (t.keywords.length : ℚ) * 2 + (t.coins.length : ℚ) * 5
        + (if 0 < t.score then t.score * (1 / 10) else 0) := by
  unfold TopicManager.calculate_score TopicManager.code_time_decay
  by_cases h : 0 < t.score
  · simp only [if_pos h]; ring
  · simp only [if_neg h]; ring

theorem calculate_similarity_eq_jaccard (a b : String) :
    TopicManager.calculate_similarity a b = TopicManager.jaccard a b := by
  unfold TopicManager.calculate_similarity TopicManager.jaccard
  by_cases h1 : (pySplit a).toFinset = ∅
  · simp [h1]
  · by_cases h2 : (pySplit b).toFinset = ∅
    · simp [h2]
    · simp [h1, h2]

/-- A concrete topic: URGENT priority, no keywords, no coins, no prior score,
collected at timestamp 0. -/
def stale_urgent_topic : CollectedTopic :=
  { title := "btc"
    source := TopicSource.rss_feed
    source_url := none
    priority := TopicPriority.urgent
    coins := []
    keywords := []
    summary := none
    collected_at := 0 }

/-- C1 (counterexample): at Δt = 72 hours the code's time-decay multiplier in
`_calculate_score` is `max(0, 1 − 72/24) = 0`, not the claimed
`max(0.3, 1 − 72/72) = 0.3`; for an URGENT topic with no keywords, coins or
prior score the computed score is 0, while the claimed multiplier would give
`100 × 0.3 = 30`. -/
theorem time_decay_spec_counterexample :
    TopicManager.calculate_score (72 * 3600) stale_urgent_topic = 0
  ∧ TopicManager.code_time_decay 72 = 0
  ∧ TopicManager.spec_time_decay 72 = 3 / 10
  ∧ TopicManager.priority_scores stale_urgent_topic.priority * TopicManager.spec_time_decay 72 = 30
  ∧ (0 : ℚ) ≠ 30 := by
  refine ⟨?_, ?_, ?_, ?_, by norm_num⟩ <;>
    norm_num [TopicManager.calculate_score, TopicManager.code_time_decay,
      TopicManager.spec_time_decay, TopicManager.priority_scores, stale_urgent_topic]

/-- C1 (amended): for every topic inserted under Strategy A, the time-decay
multiplier applied to the base priority score equals
`max(0, 1 − Δt_hours/24)` — decaying to a floor of 0 over 24 hours — so the
base-priority contribution vanishes entirely for every Δt_hours ≥ 24. -/
theorem strategyA_time_decay_amended (t : CollectedTopic) (now : ℚ) :
    TopicManager.calculate_score now t
      = TopicManager.priority_scores t.priority
          * max 0 (1 - ((now - t.collected_at) / 3600) / 24)
        + (t.keywords.length : ℚ) * 2 + (t.coins.length : ℚ) * 5
        + (if 0 < t.score then t.score * (1 / 10) else 0)
  ∧ (t.collected_at + 24 * 3600 ≤ now →
      TopicManager.calculate_score now t
        = (t.keywords.length : ℚ) * 2 + (t.coins.length : ℚ) * 5
          + (if 0 < t.score then t.score * (1 / 10) else 0)) := by
  constructor
  · rw [calculate_score_closed]
    rfl
  · intro h
    rw [calculate_score_closed]
    have hz : TopicManager.code_time_decay ((now - t.collected_at) / 3600) = 0 := by
      unfold TopicManager.code_time_decay
      apply max_eq_left
      have : (24 : ℚ) * 3600 ≤ now - t.collected_at := by linarith
      have h24 : (24 : ℚ) ≤ (now - t.collected_at) / 3600 := by linarith
      linarith
    rw [hz]
    ring

/-- Witness for `strategyA_time_decay_amended` at `stale_urgent_topic` and
`now = 86400` (Δt = 24h exactly). -/
theorem strategyA_time_decay_amended_witness :
    stale_urgent_topic.collected_at + 24 * 3600 ≤ 86400
  ∧ TopicManager.calculate_score 86400 stale_urgent_topic
      = (stale_urgent_topic.keywords.length : ℚ) * 2
        + (stale_urgent_topic.coins.length : ℚ) * 5
        + (if 0 < stale_urgent_topic.score then stale_urgent_topic.score * (1 / 10) else 0) :=
  ⟨by norm_num [stale_urgent_topic],
   (strategyA_time_decay_amended stale_urgent_topic 86400).2 (by norm_num [stale_urgent_topic])⟩

/-- C8: with all other fields fixed, the Strategy A score is non-increasing in
the topic's age: a later `now` (larger Δt) never yields a larger score. -/
theorem calculate_score_antitone (t : CollectedTopic) (now₁ now₂ : ℚ) (h : now₁ ≤ now₂) :
    TopicManager.calculate_score now₂ t ≤ TopicManager.calculate_score now₁ t := by
  rw [calculate_score_closed, calculate_score_closed]
  have hd : TopicManager.code_time_decay ((now₂ - t.collected_at) / 3600)
      ≤ TopicManager.code_time_decay ((now₁ - t.collected_at) / 3600) := by
    unfold TopicManager.code_time_decay
    apply max_le_max le_rfl
    have : (now₂ - t.collected_at) / 3600 / 24 ≥ (now₁ - t.collected_at) / 3600 / 24 := by
      linarith
    linarith
  have hp : 0 ≤ TopicManager.priority_scores t.priority := by
    cases t.priority <;> norm_num [TopicManager.priority_scores]
  have hm := mul_le_mul_of_nonneg_left hd hp
  linarith

/-- Witness for `calculate_score_antitone` at `stale_urgent_topic`,
`now₁ = 0`, `now₂ = 3600`. -/
theorem calculate_score_antitone_witness :
    (0 : ℚ) ≤ 3600
  ∧ TopicManager.calculate_score 3600 stale_urgent_topic
      ≤ TopicManager.calculate_score 0 stale_urgent_topic :=
  ⟨by norm_num, calculate_score_antitone stale_urgent_topic 0 3600 (by norm_num)⟩

/-- C6: the derived Strategy B priority is "urgent" iff score ≥ 85, "high" iff
70 ≤ score < 85, "medium" iff 50 ≤ score < 70, "low" iff score < 50; in
particular 86 ⇒ "urgent" and 69 ⇒ "medium". -/
theorem determine_priority_boundaries (s : ℚ) :
    (ContentScorer.determine_priority s = "urgent" ↔ 85 ≤ s)
  ∧ (ContentScorer.determine_priority s = "high" ↔ 70 ≤ s ∧ s < 85)
  ∧ (ContentScorer.determine_priority s = "medium" ↔ 50 ≤ s ∧ s < 70)
  ∧ (ContentScorer.determine_priority s = "low" ↔ s < 50)
  ∧ ContentScorer.determine_priority 86 = "urgent"
  ∧ ContentScorer.determine_priority 69 = "medium" := by
  unfold ContentScorer.determine_priority
  refine ⟨?_, ?_, ?_, ?_, by norm_num, by norm_num⟩ <;>
    split_ifs with h1 h2 h3 <;> simp_all <;>
    first
    | linarith
    | (intros; linarith)

/-- C7: the `except` handler of `score_content` converts any internal scoring
error into the fallback result `score = 50.0`, `priority = "medium"` instead
of propagating it. -/
theorem score_content_error_fallback (e : String) :
    (ContentScorer.score_content_catch (Except.error e)).score = 50
  ∧ (ContentScorer.score_content_catch (Except.error e)).priority = "medium"
  ∧ (ContentScorer.score_content_catch (Except.error e)).error_msg = some e :=
  ⟨rfl, rfl, rfl⟩

/-- C2 (amended): for every input, the returned Strategy B score equals the
claimed clamp formula with one correction — the content score is itself
capped at 100 (`min(100, max over categories)`) before being combined with
the price bonus and the multipliers — and the clamped value is finally
rounded to one decimal. -/
theorem score_content_formula_amended (title summary : String) (coins : List String)
    (price_change published_age : Option ℚ) :
    (ContentScorer.score_content title summary coins price_change published_age).score
      = pyRound1 (min 100 (max 0
          ((min 100 (ContentScorer.claimed_content_score title summary)
              + ContentScorer.calculate_price_bonus price_change)
            * ContentScorer.calculate_coin_importance coins
            * ContentScorer.calculate_time_decay published_age))) := by
  unfold ContentScorer.score_content ContentScorer.score_content_catch
    ContentScorer.score_content_body
  rw [analyze_content_closed]

/-- C2 (counterexample): on title "hack attack" (two urgent keywords, so an
uncapped category maximum of 90 + 2×25 = 140), no coins, no price change and
a 72-hour age (time multiplier 0.4), the code returns 40 — the content score
was first capped at 100 — while the claimed formula without that inner cap
yields clamp(140 × 0.4) = 56. -/
theorem content_cap_counterexample :
    (ContentScorer.score_content "hack attack" "" [] none (some 72)).score = 40
  ∧ ContentScorer.claimed_final_score "hack attack" "" [] none (some 72) = 56
  ∧ (40 : ℚ) ≠ 56 := by
  have hc : ContentScorer.claimed_content_score "hack attack" "" = 140 := by
    unfold ContentScorer.claimed_content_score ContentScorer.category_score
    dsimp only
    rw [show (ContentScorer.urgent_rule.keywords.filter
      (fun k => containsStr k (pyLower ("hack attack" ++ " " ++ "")))).length = 2 from by decide]
    rw [show (ContentScorer.high_rule.keywords.filter
      (fun k => containsStr k (pyLower ("hack attack" ++ " " ++ "")))).length = 0 from by decide]
    rw [show (ContentScorer.medium_rule.keywords.filter
      (fun k => containsStr k (pyLower ("hack attack" ++ " " ++ "")))).length = 0 from by decide]
    rw [show (ContentScorer.low_rule.keywords.filter
      (fun k => containsStr k (pyLower ("hack attack" ++ " " ++ "")))).length = 0 from by decide]
    norm_num [ContentScorer.urgent_rule, ContentScorer.high_rule,
      ContentScorer.medium_rule, ContentScorer.low_rule]
  have hco : ContentScorer.calculate_coin_importance [] = 1 := by
    simp [ContentScorer.calculate_coin_importance]
  have ht : ContentScorer.calculate_time_decay (some 72) = 4 / 10 := by
    norm_num [ContentScorer.calculate_time_decay]
  refine ⟨?_, ?_, by norm_num⟩
  · unfold ContentScorer.score_content ContentScorer.score_content_catch
      ContentScorer.score_content_body
    rw [analyze_content_closed]
    dsimp only
    rw [hc, hco, ht, show ContentScorer.calculate_price_bonus none = 0 from rfl]
    rw [show (min 100 (max 0 ((min (100:ℚ) 140 + 0) * 1 * (4 / 10)))) = 40 by norm_num]
    unfold pyRound1 roundHalfEven
    rw [show ((40 : ℚ) * 10) = ((400 : ℤ) : ℚ) by norm_num, Int.floor_intCast]
    norm_num
  · unfold ContentScorer.claimed_final_score
    rw [hc, hco, ht, show ContentScorer.calculate_price_bonus none = 0 from rfl]
    norm_num

/-- C4: `_is_duplicate` classifies a candidate as duplicate iff its case-folded
title exactly matches a seen title or some seen title has whitespace-token
Jaccard similarity strictly above 0.8; a candidate with an empty token set has
similarity 0.0 with every seen title, so absent an exact match it is not a
duplicate. -/
theorem is_duplicate_characterization (mgr : TopicManager.State) (t : CollectedTopic) :
    (TopicManager.is_duplicate mgr t = true ↔
      pyLower t.title ∈ mgr.processed_titles ∨
        ∃ pt ∈ mgr.processed_titles, 8 / 10 < TopicManager.jaccard (pyLower t.title) pt)
  ∧ (pySplit (pyLower t.title) = [] →
      ∀ pt, TopicManager.calculate_similarity (pyLower t.title) pt = 0)
  ∧ (pySplit (pyLower t.title) = [] → pyLower t.title ∉ mgr.processed_titles →
      TopicManager.is_duplicate mgr t = false) := by
  have hsim : ∀ pt, TopicManager.calculate_similarity (pyLower t.title) pt
      = TopicManager.jaccard (pyLower t.title) pt :=
    fun pt => calculate_similarity_eq_jaccard _ pt
  have hchar : TopicManager.is_duplicate mgr t = true ↔
      pyLower t.title ∈ mgr.processed_titles ∨
        ∃ pt ∈ mgr.processed_titles, 8 / 10 < TopicManager.jaccard (pyLower t.title) pt := by
    unfold TopicManager.is_duplicate
    dsimp only
    by_cases hmem : pyLower t.title ∈ mgr.processed_titles
    · rw [if_pos (List.elem_iff.mpr hmem)]
      simp [hmem]
    · rw [if_neg (fun hc => hmem (List.elem_iff.mp hc))]
      simp only [List.any_eq_true, decide_eq_true_eq, hsim]
      constructor
      · intro ⟨pt, hpt, hlt⟩
        exact Or.inr ⟨pt, hpt, hlt⟩
      · rintro (hmem' | ⟨pt, hpt, hlt⟩)
        · exact absurd hmem' hmem
        · exact ⟨pt, hpt, hlt⟩
  have hempty : pySplit (pyLower t.title) = [] →
      ∀ pt, TopicManager.calculate_similarity (pyLower t.title) pt = 0 := by
    intro h pt
    unfold TopicManager.calculate_similarity
    rw [h]
    simp
  refine ⟨hchar, hempty, ?_⟩
  intro h hmem
  cases hdup : TopicManager.is_duplicate mgr t with
  | false => rfl
  | true =>
    rcases hchar.mp hdup with hmem' | ⟨pt, hpt, hlt⟩
    · exact absurd hmem' hmem
    · rw [← hsim pt, hempty h pt] at hlt
      norm_num at hlt

/-- A candidate whose title consists of whitespace only (empty token set). -/
def empty_title_topic : CollectedTopic :=
  { title := " "
    source := TopicSource.news_api
    source_url := none
    priority := TopicPriority.low
    coins := []
    keywords := []
    summary := none
    collected_at := 0 }

/-- A store that has already seen one unrelated title. -/
def seen_mgr : TopicManager.State :=
  { topics := []
    processed_titles := ["bitcoin news"]
    topic_history := [] }

/-- Witness for `is_duplicate_characterization`: the whitespace-only candidate
against a store with one seen title is not a duplicate. -/
theorem is_duplicate_characterization_witness :
    pySplit (pyLower empty_title_topic.title) = []
  ∧ pyLower empty_title_topic.title ∉ seen_mgr.processed_titles
  ∧ TopicManager.is_duplicate seen_mgr empty_title_topic = false :=
  ⟨by decide, by decide,
   (is_duplicate_characterization seen_mgr empty_title_topic).2.2 (by decide) (by decide)⟩

/-- C10: the duplicate verdict depends only on the candidate's case-folded
title and the stored title set — two candidates with the same case-folded
title get the same verdict against every store, whatever their source,
priority, coins, keywords, summary, raw data or score. -/
theorem is_duplicate_title_only (mgr : TopicManager.State) (t₁ t₂ : CollectedTopic)
    (h : pyLower t₁.title = pyLower t₂.title) :
    TopicManager.is_duplicate mgr t₁ = TopicManager.is_duplicate mgr t₂ := by
  unfold TopicManager.is_duplicate
  rw [h]

/-- A concrete RSS-side topic. -/
def w_topic_a : CollectedTopic :=
  { title := "BTC Surges"
    source := TopicSource.rss_feed
    source_url := none
    priority := TopicPriority.urgent
    coins := ["BTC"]
    keywords := ["surge"]
    summary := some "a summary"
    collected_at := 0
    data := [("feed_url", "example")]
    score := 10 }

/-- A topic with the same case-folded title but every other field different. -/
def w_topic_b : CollectedTopic :=
  { title := "btc surges"
    source := TopicSource.price_api
    source_url := some "url"
    priority := TopicPriority.low
    coins := []
    keywords := []
    summary := none
    collected_at := 5
    data := []
    score := 0 }

/-- A store that has already seen the shared case-folded title. -/
def w_mgr : TopicManager.State :=
  { topics := []
    processed_titles := ["btc surges"]
    topic_history := [] }

/-- Witness for `is_duplicate_title_only` on two concrete topics differing in
every field except the case-folded title. -/
theorem is_duplicate_title_only_witness :
    pyLower w_topic_a.title = pyLower w_topic_b.title
  ∧ TopicManager.is_duplicate w_mgr w_topic_a = TopicManager.is_duplicate w_mgr w_topic_b :=
  ⟨by decide, is_duplicate_title_only w_mgr w_topic_a w_topic_b (by decide)⟩

/-- A store whose only seen title is 10 single-letter tokens. -/
def sim_trap_mgr : TopicManager.State :=
  { topics := []
    processed_titles := ["a b c d e f g h i j"]
    topic_history := [] }

/-- A candidate differing from the seen title in one token: Jaccard 9/11 > 0.8,
yet not an exact match. -/
def sim_trap_topic : CollectedTopic :=
  { title := "a b c d e f g h i k"
    source := TopicSource.rss_feed
    source_url := none
    priority := TopicPriority.medium
    coins := []
    keywords := []
    summary := none
    collected_at := 0 }

/-- C3 (counterexample): the claim quantifies over every store that "does not
yet contain that title", but a store holding a merely *similar* title
(Jaccard 9/11 > 0.8) rejects both copies, so `add([t1, t2])` grows the store
by 0, not exactly 1. -/
theorem add_topics_pair_counterexample :
    pyLower sim_trap_topic.title ∉ sim_trap_mgr.processed_titles
  ∧ (TopicManager.add_topics 0 sim_trap_mgr [sim_trap_topic, sim_trap_topic]).topics.length
      = sim_trap_mgr.topics.length
  ∧ sim_trap_mgr.topics.length ≠ sim_trap_mgr.topics.length + 1 := by
  have hsim : TopicManager.calculate_similarity (pyLower sim_trap_topic.title)
      "a b c d e f g h i j" = ((9 : ℕ) : ℚ) / ((11 : ℕ) : ℚ) := by
    unfold TopicManager.calculate_similarity
    dsimp only
    rw [if_neg (by decide :
      ¬((pySplit (pyLower sim_trap_topic.title)).toFinset = ∅ ∨
        (pySplit "a b c d e f g h i j").toFinset = ∅))]
    rw [show ((pySplit (pyLower sim_trap_topic.title)).toFinset ∩
      (pySplit "a b c d e f g h i j").toFinset).card = 9 from by decide]
    rw [show ((pySplit (pyLower sim_trap_topic.title)).toFinset ∪
      (pySplit "a b c d e f g h i j").toFinset).card = 11 from by decide]
  have hdup : TopicManager.is_duplicate sim_trap_mgr sim_trap_topic = true := by
    unfold TopicManager.is_duplicate
    dsimp only
    rw [if_neg (by decide :
      ¬(sim_trap_mgr.processed_titles.contains (pyLower sim_trap_topic.title) = true))]
    show sim_trap_mgr.processed_titles.any _ = true
    simp only [sim_trap_mgr, List.any_cons, List.any_nil, Bool.or_false, decide_eq_true_eq]
    rw [hsim]
    norm_num
  have hadd : TopicManager.add_topics 0 sim_trap_mgr [sim_trap_topic, sim_trap_topic]
      = sim_trap_mgr := by
    unfold TopicManager.add_topics
    simp only [List.foldl_cons, List.foldl_nil, hdup, if_true]
  refine ⟨by decide, ?_, by decide⟩
  rw [hadd]

theorem set_add_contains (s : List String) (x : String) :
    (TopicManager.set_add s x).contains x = true := by
  unfold TopicManager.set_add
  by_cases h : s.contains x = true
  · rw [if_pos h]
    exact h
  · rw [if_neg h]
    simp [List.elem_iff]

/-- C3 (amended): if the first candidate is not classified as a duplicate of
the store (neither an exact case-folded match nor >0.8-similar to a seen
title), then `add([t1, t2])` with identical case-folded titles grows the store
by exactly 1, the second copy being rejected as an exact-title duplicate; and
adding a topic whose exact case-folded title is already registered leaves the
store unchanged (insertion is idempotent on exact-title duplicates). -/
theorem add_topics_dedup_amended :
    (∀ (now : ℚ) (mgr : TopicManager.State) (t₁ t₂ : CollectedTopic),
      pyLower t₁.title = pyLower t₂.title →
      TopicManager.is_duplicate mgr t₁ = false →
      (TopicManager.add_topics now mgr [t₁, t₂]).topics.length = mgr.topics.length + 1)
  ∧ (∀ (now : ℚ) (mgr : TopicManager.State) (t : CollectedTopic),
      pyLower t.title ∈ mgr.processed_titles →
      TopicManager.add_topics now mgr [t] = mgr) := by
  constructor
  · intro now mgr t₁ t₂ h1 h2
    unfold TopicManager.add_topics
    simp only [List.foldl_cons, List.foldl_nil, h2, Bool.false_eq_true, if_false]
    have hdup2 : TopicManager.is_duplicate
        { topics := mgr.topics ++ [{ t₁ with score := TopicManager.calculate_score now t₁ }]
          processed_titles := TopicManager.set_add mgr.processed_titles (pyLower t₁.title)
          topic_history := TopicManager.dict_set mgr.topic_history (pyLower t₁.title) t₁.collected_at }
        t₂ = true := by
      unfold TopicManager.is_duplicate
      dsimp only
      rw [← h1, if_pos (set_add_contains mgr.processed_titles (pyLower t₁.title))]
    simp only [hdup2, if_true]
    simp [List.length_append]
  · intro now mgr t hmem
    unfold TopicManager.add_topics
    simp only [List.foldl_cons, List.foldl_nil]
    have hdup : TopicManager.is_duplicate mgr t = true := by
      unfold TopicManager.is_duplicate
      dsimp only
      rw [if_pos (List.elem_iff.mpr hmem)]
    simp [hdup]

/-- An empty store. -/
def fresh_mgr : TopicManager.State :=
  { topics := []
    processed_titles := []
    topic_history := [] }

/-- Witness for `add_topics_dedup_amended`: adding the title-identical pair
`w_topic_a`, `w_topic_b` to the empty store grows it by exactly 1, and
re-adding `w_topic_b` to a store that has registered its title is a no-op. -/
theorem add_topics_dedup_amended_witness :
    (pyLower w_topic_a.title = pyLower w_topic_b.title
      ∧ TopicManager.is_duplicate fresh_mgr w_topic_a = false
      ∧ (TopicManager.add_topics 0 fresh_mgr [w_topic_a, w_topic_b]).topics.length
          = fresh_mgr.topics.length + 1)
  ∧ (pyLower w_topic_b.title ∈ w_mgr.processed_titles
      ∧ TopicManager.add_topics 0 w_mgr [w_topic_b] = w_mgr) :=
  ⟨⟨by decide, by decide,
    add_topics_dedup_amended.1 0 fresh_mgr w_topic_a w_topic_b (by decide) (by decide)⟩,
   ⟨by decide, add_topics_dedup_amended.2 0 w_mgr w_topic_b (by decide)⟩⟩

/-- A concrete price mover (+12% in 24h). -/
def w_mover : PriceDataCollector.PriceMover :=
  { symbol := "BTC"
    name := "Bitcoin"
    price := 50000
    change_24h := 12
    volume := 1000
    market_cap := 900000 }

/-- C9 (counterexample): a price-mover topic always carries 6 keywords —
direction, "価格変動", "market", the coin name, and the two sentiment tags —
violating the claimed cap of 5. -/
theorem price_topic_keywords_counterexample :
    (PriceDataCollector.create_price_topic 0 w_mover).keywords
      = ["急騰", "価格変動", "market", "Bitcoin", "bullish", "上昇"]
  ∧ ¬((PriceDataCollector.create_price_topic 0 w_mover).keywords.length ≤ 5) := by
  constructor
  · decide
  · decide

/-- C9 (amended): RSS keyword extraction and trending-coin topics respect the
cap of 5 keywords, but every price-mover topic has exactly 6 keywords. -/
theorem keywords_cap_amended :
    (∀ text, (RSSFeedCollector.extract_keywords text).length ≤ 5)
  ∧ (∀ (now : ℚ) (coin : PriceDataCollector.TrendingCoin),
      (PriceDataCollector.create_trending_topic now coin).keywords.length ≤ 5)
  ∧ (∀ (now : ℚ) (mover : PriceDataCollector.PriceMover),
      (PriceDataCollector.create_price_topic now mover).keywords.length = 6) := by
  refine ⟨?_, ?_, ?_⟩
  · intro text
    unfold RSSFeedCollector.extract_keywords
    dsimp only
    exact List.length_take_le _ _
  · intro now coin
    simp [PriceDataCollector.create_trending_topic]
  · intro now mover
    unfold PriceDataCollector.create_price_topic
    dsimp only
    by_cases h : (0 : ℚ) < mover.change_24h <;> simp [h]

theorem score_ge_trans (a b c : CollectedTopic) :
    TopicManager.score_ge a b = true → TopicManager.score_ge b c = true →
    TopicManager.score_ge a c = true := by
  simp only [TopicManager.score_ge, decide_eq_true_eq]
  intro hab hbc
  exact le_trans hbc hab

theorem score_ge_total (a b : CollectedTopic) :
    (TopicManager.score_ge a b || TopicManager.score_ge b a) = true := by
  simp only [TopicManager.score_ge, Bool.or_eq_true, decide_eq_true_eq]
  exact le_total b.score a.score

/-- C5: `get_top_topics(n, m)` returns at most `n` topics, sorted
non-increasingly by score, all with score ≥ m; the underlying sorted list is a
permutation of the threshold filter that agrees with it on every equal-score
class (stability: ties keep insertion order), and every dropped element scores
no higher than every returned element (so the result is exactly the `n`
highest-scoring topics meeting the threshold). -/
theorem get_top_topics_spec (mgr : TopicManager.State) (n : Nat) (m : ℚ) :
    (TopicManager.get_top_topics mgr n m).length ≤ n
  ∧ (TopicManager.get_top_topics mgr n m).Pairwise (fun a b => b.score ≤ a.score)
  ∧ (∀ t ∈ TopicManager.get_top_topics mgr n m, m ≤ t.score)
  ∧ ((mgr.topics.filter (fun t => decide (m ≤ t.score))).mergeSort TopicManager.score_ge).Perm
      (mgr.topics.filter (fun t => decide (m ≤ t.score)))
  ∧ (∀ q : ℚ,
      ((mgr.topics.filter (fun t => decide (m ≤ t.score))).mergeSort
          TopicManager.score_ge).filter (fun t => decide (t.score = q))
        = (mgr.topics.filter (fun t => decide (m ≤ t.score))).filter
            (fun t => decide (t.score = q)))
  ∧ (∀ x ∈ ((mgr.topics.filter (fun t => decide (m ≤ t.score))).mergeSort
        TopicManager.score_ge).drop n,
      ∀ y ∈ TopicManager.get_top_topics mgr n m, x.score ≤ y.score) := by
  have hgt : TopicManager.get_top_topics mgr n m
      = ((mgr.topics.filter (fun t => decide (m ≤ t.score))).mergeSort
          TopicManager.score_ge).take n := rfl
  have hperm := List.mergeSort_perm
    (mgr.topics.filter (fun t => decide (m ≤ t.score))) TopicManager.score_ge
  have hsorted : ((mgr.topics.filter (fun t => decide (m ≤ t.score))).mergeSort
      TopicManager.score_ge).Pairwise (fun a b => TopicManager.score_ge a b = true) :=
    List.sorted_mergeSort score_ge_trans score_ge_total _
  have hsorted' : ((mgr.topics.filter (fun t => decide (m ≤ t.score))).mergeSort
      TopicManager.score_ge).Pairwise (fun a b => b.score ≤ a.score) :=
    hsorted.imp (fun h => by
      simpa only [TopicManager.score_ge, decide_eq_true_eq] using h)
  refine ⟨?_, ?_, ?_, hperm, ?_, ?_⟩
  · rw [hgt]
    exact List.length_take_le n _
  · rw [hgt]
    exact List.Pairwise.sublist (List.take_sublist n _) hsorted'
  · intro t ht
    rw [hgt] at ht
    have hmem : t ∈ (mgr.topics.filter (fun t => decide (m ≤ t.score))).mergeSort
        TopicManager.score_ge := List.mem_of_mem_take ht
    have hmemf := hperm.mem_iff.mp hmem
    have := (List.mem_filter.mp hmemf).2
    simpa only [decide_eq_true_eq] using this
  · intro q
    have hall : ∀ x ∈ (mgr.topics.filter (fun t => decide (m ≤ t.score))).filter
        (fun t => decide (t.score = q)), x.score = q := by
      intro x hx
      have := (List.mem_filter.mp hx).2
      simpa only [decide_eq_true_eq] using this
    have hpw : ((mgr.topics.filter (fun t => decide (m ≤ t.score))).filter
        (fun t => decide (t.score = q))).Pairwise
        (fun a b => TopicManager.score_ge a b = true) := by
      apply List.pairwise_of_forall_mem_list
      intro a ha b hb
      simp only [TopicManager.score_ge, decide_eq_true_eq]
      rw [hall a ha, hall b hb]
    have hstable := List.sublist_mergeSort score_ge_trans score_ge_total hpw
      (List.filter_sublist _)
    have h2 := List.Sublist.filter (fun t => decide (t.score = q)) hstable
    rw [List.filter_eq_self.mpr (fun a ha => (List.mem_filter.mp ha).2)] at h2
    have hlen : (((mgr.topics.filter (fun t => decide (m ≤ t.score))).mergeSort
        TopicManager.score_ge).filter (fun t => decide (t.score = q))).length
        = ((mgr.topics.filter (fun t => decide (m ≤ t.score))).filter
            (fun t => decide (t.score = q))).length :=
      (hperm.filter _).length_eq
    exact (List.Sublist.eq_of_length h2 hlen.symm).symm
  · intro x hx y hy
    rw [hgt] at hy
    have hsplit := hsorted'
    rw [← List.take_append_drop n ((mgr.topics.filter
      (fun t => decide (m ≤ t.score))).mergeSort TopicManager.score_ge)] at hsplit
    have hpa := List.pairwise_append.mp hsplit
    exact hpa.2.2 y hy x hx

/-- A concrete stored topic with score 10. -/
def c5_topic : CollectedTopic :=
  { title := "x"
    source := TopicSource.rss_feed
    source_url := none
    priority := TopicPriority.low
    coins := []
    keywords := []
    summary := none
    collected_at := 0
    score := 10 }

/-- A store holding only `c5_topic`. -/
def c5_mgr : TopicManager.State :=
  { topics := [c5_topic]
    processed_titles := []
    topic_history := [] }

/-- Witness for `get_top_topics_spec`: the single stored topic is returned by
`get_top_topics 1 0` and its score meets the threshold. -/
theorem get_top_topics_spec_witness :
    c5_topic ∈ TopicManager.get_top_topics c5_mgr 1 0
  ∧ (0 : ℚ) ≤ c5_topic.score :=
  ⟨by simp [TopicManager.get_top_topics, c5_mgr, c5_topic, List.mergeSort_singleton],
   (get_top_topics_spec c5_mgr 1 0).2.2.1 c5_topic
     (by simp [TopicManager.get_top_topics, c5_mgr, c5_topic, List.mergeSort_singleton])⟩

/-- Witness for `score_content_formula_amended` at a concrete input. -/
theorem score_content_formula_amended_witness :
    (ContentScorer.score_content "btc" "" [] none none).score
      = pyRound1 (min 100 (max 0
          ((min 100 (ContentScorer.claimed_content_score "btc" "")
              + ContentScorer.calculate_price_bonus none)
            * ContentScorer.calculate_coin_importance []
            * ContentScorer.calculate_time_decay none))) :=
  score_content_formula_amended "btc" "" [] none none

/-- Witness for `determine_priority_boundaries` at scores 86 and 69. -/
theorem determine_priority_boundaries_witness :
    ContentScorer.determine_priority 86 = "urgent"
  ∧ ContentScorer.determine_priority 69 = "medium" :=
  ⟨(determine_priority_boundaries 86).2.2.2.2.1,
   (determine_priority_boundaries 69).2.2.2.2.2⟩

/-- Witness for `score_content_error_fallback` at a concrete error message. -/
theorem score_content_error_fallback_witness :
    (ContentScorer.score_content_catch (Except.error "boom")).score = 50
  ∧ (ContentScorer.score_content_catch (Except.error "boom")).priority = "medium" :=
  ⟨(score_content_error_fallback "boom").1, (score_content_error_fallback "boom").2.1⟩

/-- Witness for `keywords_cap_amended` at concrete inputs. -/
theorem keywords_cap_amended_witness :
    (RSSFeedCollector.extract_keywords "btc price surge").length ≤ 5
  ∧ (PriceDataCollector.create_price_topic 0 w_mover).keywords.length = 6 :=
  ⟨keywords_cap_amended.1 "btc price surge", keywords_cap_amended.2.2 0 w_mover⟩
